import Mathlib

/-!
# Verification of `bounding_box.cpp` (namespace `bb`)

Shallow embedding of the two value types `Point` and `Box` and of the free
function `intersects`, in two models.

* Exact model (namespace `bb`).  Coordinates are rationals `ℚ`, the sums in
  `width()` and `height()` are exact, every comparison of the source is kept.
  It carries the statements about the order of the coordinates and of the
  computed edges.
* Binary32 model (namespace `bb.f32`).  Coordinates are values of the C++ type
  `float`: finite binary32 values, the two infinities and NaN.  The operator `+`
  rounds to nearest, ties to even, and overflows to an infinity; `<`, `>` and
  `<=` are false on NaN.  It carries the statements in which the rounding of
  `width()` and `height()` matters.

In both models a C++ class with private members and `constexpr` accessors
becomes a structure whose fields carry the private names (`x_`, `topLeft_`, ...)
and whose accessors are separate definitions carrying the public names; `bool`
is `Bool`, and `&&`, `||`, `<`, `>` are kept operator by operator.
-/

namespace bb

/-! ## Exact model: data model -/

/-- Class `Point`: the two private members `x_`, `y_`; the constructor
`Point(float x, float y)` is `Point.mk x y`. -/
structure Point where
  x_ : ℚ
  y_ : ℚ
  deriving DecidableEq, Repr

/-- Accessor `Point::x()`. -/
def Point.x (p : Point) : ℚ := p.x_

/-- Accessor `Point::y()`. -/
def Point.y (p : Point) : ℚ := p.y_

/-- Class `Box`: the two private members `topLeft_`, `bottomRight_`; the
constructor `Box(Point topLeft, Point bottomRight)` is `Box.mk topLeft bottomRight`. -/
structure Box where
  topLeft_ : Point
  bottomRight_ : Point
  deriving DecidableEq, Repr

/-- Accessor `Box::topLeft()`. -/
def Box.topLeft (b : Box) : Point := b.topLeft_

/-- Accessor `Box::bottomRight()`. -/
def Box.bottomRight (b : Box) : Point := b.bottomRight_

/-- Method `Box::width()`: `topLeft_.x() + bottomRight_.x()`, the sum being exact in
this model (the rounded sum is `f32.Box.width`). -/
def Box.width (b : Box) : ℚ := b.topLeft_.x + b.bottomRight_.x

/-- Method `Box::height()`: `topLeft_.y() + bottomRight_.y()`, the sum being exact in
this model (the rounded sum is `f32.Box.height`). -/
def Box.height (b : Box) : ℚ := b.topLeft_.y + b.bottomRight_.y

/-- Method `Box::topRight()`: `{width(), topLeft_.y()}`. -/
def Box.topRight (b : Box) : Point := ⟨b.width, b.topLeft_.y⟩

/-- Method `Box::bottomLeft()`: `{topLeft_.x(), height()}`. -/
def Box.bottomLeft (b : Box) : Point := ⟨b.topLeft_.x, b.height⟩

/-! ## The predicate -/

/-- Function `intersects(Box const& a, Box const& b)`, the four local
booleans and the final disjunction as written in the source. -/
def intersects (a b : Box) : Bool :=
  let aTopLeftInside : Bool :=
    (decide (a.topLeft.x > b.topLeft.x) && decide (a.topLeft.x < b.topRight.x)) &&
    (decide (a.topLeft.y > b.bottomRight.y) && decide (a.topLeft.y < b.topLeft.y))
  let bTopLeftInside : Bool :=
    (decide (b.topLeft.x > a.topLeft.x) && decide (b.topLeft.x < a.topRight.x)) &&
    (decide (b.topLeft.y > a.bottomRight.y) && decide (b.topLeft.y < a.topLeft.y))
  let aTopRightInside : Bool :=
    (decide (a.topRight.x > b.topLeft.x) && decide (a.topRight.x < b.topRight.x)) &&
    (decide (a.topRight.y > b.bottomRight.y) && decide (a.topRight.y < b.topLeft.y))
  let bTopRightInside : Bool :=
    (decide (b.topRight.x > a.topLeft.x) && decide (b.topRight.x < a.topRight.x)) &&
    (decide (b.topRight.y > a.bottomRight.y) && decide (b.topRight.y < a.topRight.y))
  aTopLeftInside || bTopLeftInside || aTopRightInside || bTopRightInside

/-! ## Specification-side vocabulary -/

/-- Spec wording, "strictly inside": a point `P` is strictly inside box `c` when
`c.topLeft.x < P.x < c.topRight().x` and `c.bottomRight.y < P.y < c.topLeft.y`. -/
def strictlyInside (P : Point) (c : Box) : Prop :=
  (c.topLeft.x < P.x ∧ P.x < c.topRight.x) ∧ (c.bottomRight.y < P.y ∧ P.y < c.topLeft.y)

instance (P : Point) (c : Box) : Decidable (strictlyInside P c) := by
  unfold strictlyInside; infer_instance

/-- Shorthand for building a box from four coordinates:
`box x₁ y₁ x₂ y₂` is `Box({x₁, y₁}, {x₂, y₂})`. -/
def box (x₁ y₁ x₂ y₂ : ℚ) : Box := ⟨⟨x₁, y₁⟩, ⟨x₂, y₂⟩⟩

/-- Positive extent in the sense of the code: `bottomRight.x > 0` and
`bottomRight.y < topLeft.y`. -/
def positiveExtent (c : Box) : Prop :=
  0 < c.bottomRight.x ∧ c.bottomRight.y < c.topLeft.y

/-- Overlap of the regions of two boxes: the horizontal spans
`(topLeft.x, topRight().x)` and the vertical spans `(bottomRight.y, topLeft.y)`
have a common interior. -/
def regionsOverlap (a b : Box) : Prop :=
  max a.topLeft.x b.topLeft.x < min a.topRight.x b.topRight.x ∧
    max a.bottomRight.y b.bottomRight.y < min a.topLeft.y b.topLeft.y

/-- Given an overlap, the condition under which one of the four corner tests
fires: the box with the strictly lower top edge has its left edge strictly to
the right of the other left edge, or its right edge strictly to the left of
the other right edge. -/
def lowerTopCornerInside (a b : Box) : Prop :=
  (a.topLeft.y < b.topLeft.y ∧
      (b.topLeft.x < a.topLeft.x ∨ a.topRight.x < b.topRight.x)) ∨
    (b.topLeft.y < a.topLeft.y ∧
      (a.topLeft.x < b.topLeft.x ∨ b.topRight.x < a.topRight.x))

/-! ## Concrete boxes -/

/-- First box of test case "Box intersects 0". -/
def t0b1 : Box := box 1 1 2 2
/-- Second box of test case "Box intersects 0". -/
def t0b2 : Box := box 3 3 4 4
/-- Box `b1` of test cases "Box intersects 1" to "Box intersects 4". -/
def tb1 : Box := box 2 3 4 1
/-- Box `b2` of test cases "Box intersects 1" and "Box intersects 2". -/
def tb2 : Box := box 1 4 3 2
/-- Box `b2` of test cases "Box intersects 3" and "Box intersects 4". -/
def tb3 : Box := box 3 4 5 2

/-- Unit square region `[0,2] × [0,2]`. -/
def sqA : Box := box 0 2 2 0
/-- Region `[2,4] × [0,2]`: shares the edge `x = 2` with `sqA`. -/
def sqEdge : Box := box 2 2 2 0
/-- Region `[2,4] × [2,4]`: shares only the corner point `(2,2)` with `sqA`. -/
def sqCorner : Box := box 2 4 2 2

/-- Wide, flat box: region `[0,10] × [4,6]`. -/
def crossA : Box := box 0 6 10 4
/-- Narrow, tall box: region `[4,6] × [0,10]`; it crosses `crossA`. -/
def crossB : Box := box 4 10 2 0

/-- Corners `(5,10)` and `(6,0)`: as absolute corners the rectangle `[5,6] × [0,10]`. -/
def sepA : Box := box 5 10 6 0
/-- Corners `(7,5)` and `(8,1)`: as absolute corners the rectangle `[7,8] × [1,5]`. -/
def sepB : Box := box 7 5 8 1

/-! ## Variant predicates -/

/-- Spec wording, bounds taken from the derived quantities on both axes: the
corner `P` is tested against the horizontal bounds `topLeft.x` and `width()` and
the vertical bounds `height()` (which is `bottomLeft().y`) and `topLeft.y`. -/
def cornerInsideDerived (P : Point) (c : Box) : Bool :=
  (decide (P.x > c.topLeft.x) && decide (P.x < c.width)) &&
  (decide (P.y > c.height) && decide (P.y < c.topLeft.y))

/-- Spec wording, the variant of `intersects` whose four corner tests take the
bounds of each box from its derived quantities on both axes. -/
def intersectsDerived (a b : Box) : Bool :=
  cornerInsideDerived a.topLeft b || cornerInsideDerived b.topLeft a ||
    cornerInsideDerived a.topRight b || cornerInsideDerived b.topRight a

/-- Corner test with the derived quantity on the horizontal axis only: horizontal
bounds `topLeft.x` and `width()`, vertical bounds the stored `bottomRight.y` and
`topLeft.y`. -/
def cornerInsideWidthOnly (P : Point) (c : Box) : Bool :=
  (decide (P.x > c.topLeft.x) && decide (P.x < c.width)) &&
  (decide (P.y > c.bottomRight.y) && decide (P.y < c.topLeft.y))

/-- Variant of `intersects` whose four corner tests use `cornerInsideWidthOnly`. -/
def intersectsWidthOnly (a b : Box) : Bool :=
  cornerInsideWidthOnly a.topLeft b || cornerInsideWidthOnly b.topLeft a ||
    cornerInsideWidthOnly a.topRight b || cornerInsideWidthOnly b.topRight a

/-- Box of test case "Box construct". -/
def tcBox : Box := box 1 2 3 4

namespace f32

/-! ## Binary32 values and operations -/

/-- Values of the C++ type `float` (IEEE 754 binary32): a finite value, given by
the rational number it denotes, the two infinities, or NaN.  The sign of zero is
not kept: `+0` and `-0` compare equal and no operation of the source tells them
apart. -/
inductive F32 where
  | fin (q : ℚ)
  | pinf
  | ninf
  | nan
  deriving DecidableEq, Repr

/-- Operator `<` on `float`: false as soon as one operand is NaN. -/
def F32.lt : F32 → F32 → Bool
  | .fin p, .fin q => decide (p < q)
  | .fin _, .pinf => true
  | .ninf, .fin _ => true
  | .ninf, .pinf => true
  | _, _ => false

/-- Operator `>` on `float`: `x > y` is `y < x`. -/
def F32.gt (x y : F32) : Bool := F32.lt y x

/-- Operator `<=` on `float`: false as soon as one operand is NaN. -/
def F32.le : F32 → F32 → Bool
  | .fin p, .fin q => decide (p ≤ q)
  | .fin _, .pinf => true
  | .ninf, .fin _ => true
  | .ninf, .pinf => true
  | .pinf, .pinf => true
  | .ninf, .ninf => true
  | _, _ => false

/-- Binade of a rational for binary32: the exponent `e` with `2^e <= |q| < 2^(e+1)`,
kept within the normal range `-126 .. 127`. -/
def expo (q : ℚ) : ℤ := max (-126) (min 127 (Int.log 2 |q|))

/-- Spacing of the binary32 values in the binade of `q` (24 significant bits). -/
def ulp (q : ℚ) : ℚ := (2 : ℚ) ^ (expo q - 23)

/-- Nearest integer, ties to the even one. -/
def roundHalfEven (m : ℚ) : ℤ :=
  if m - ⌊m⌋ < 1 / 2 then ⌊m⌋
  else if 1 / 2 < m - ⌊m⌋ then ⌊m⌋ + 1
  else if ⌊m⌋ % 2 = 0 then ⌊m⌋ else ⌊m⌋ + 1

/-- Largest finite binary32 value, `(2^24 - 1) * 2^104`. -/
def maxFinite : ℚ := (2 ^ 24 - 1) * 2 ^ 104

/-- Rounding of an exact result to binary32 in the default mode (to nearest, ties
to even); a result beyond the largest finite value becomes an infinity. -/
def round32 (q : ℚ) : F32 :=
  if maxFinite < (roundHalfEven (q / ulp q) : ℚ) * ulp q then F32.pinf
  else if (roundHalfEven (q / ulp q) : ℚ) * ulp q < -maxFinite then F32.ninf
  else F32.fin ((roundHalfEven (q / ulp q) : ℚ) * ulp q)

/-- Operator `+` on `float`. -/
def F32.add : F32 → F32 → F32
  | .fin p, .fin q => round32 (p + q)
  | .nan, _ => .nan
  | _, .nan => .nan
  | .pinf, .ninf => .nan
  | .ninf, .pinf => .nan
  | .pinf, _ => .pinf
  | _, .pinf => .pinf
  | .ninf, _ => .ninf
  | _, .ninf => .ninf

/-! ## Data model over binary32 -/

/-- Class `Point` with `float` members `x_`, `y_`. -/
structure Point where
  x_ : F32
  y_ : F32
  deriving DecidableEq, Repr

/-- Accessor `Point::x()`. -/
def Point.x (p : Point) : F32 := p.x_

/-- Accessor `Point::y()`. -/
def Point.y (p : Point) : F32 := p.y_

/-- Class `Box` with members `topLeft_`, `bottomRight_`. -/
structure Box where
  topLeft_ : Point
  bottomRight_ : Point
  deriving DecidableEq, Repr

/-- Accessor `Box::topLeft()`. -/
def Box.topLeft (b : Box) : Point := b.topLeft_

/-- Accessor `Box::bottomRight()`. -/
def Box.bottomRight (b : Box) : Point := b.bottomRight_

/-- Method `Box::width()`: the `float` sum `topLeft_.x() + bottomRight_.x()`. -/
def Box.width (b : Box) : F32 := F32.add b.topLeft_.x b.bottomRight_.x

/-- Method `Box::height()`: the `float` sum `topLeft_.y() + bottomRight_.y()`. -/
def Box.height (b : Box) : F32 := F32.add b.topLeft_.y b.bottomRight_.y

/-- Method `Box::topRight()`: `{width(), topLeft_.y()}`. -/
def Box.topRight (b : Box) : Point := ⟨b.width, b.topLeft_.y⟩

/-- Method `Box::bottomLeft()`: `{topLeft_.x(), height()}`. -/
def Box.bottomLeft (b : Box) : Point := ⟨b.topLeft_.x, b.height⟩

/-- Function `intersects(Box const& a, Box const& b)` over `float`, the four local
booleans and the final disjunction as written in the source. -/
def intersects (a b : Box) : Bool :=
  let aTopLeftInside : Bool :=
    (F32.gt a.topLeft.x b.topLeft.x && F32.lt a.topLeft.x b.topRight.x) &&
    (F32.gt a.topLeft.y b.bottomRight.y && F32.lt a.topLeft.y b.topLeft.y)
  let bTopLeftInside : Bool :=
    (F32.gt b.topLeft.x a.topLeft.x && F32.lt b.topLeft.x a.topRight.x) &&
    (F32.gt b.topLeft.y a.bottomRight.y && F32.lt b.topLeft.y a.topLeft.y)
  let aTopRightInside : Bool :=
    (F32.gt a.topRight.x b.topLeft.x && F32.lt a.topRight.x b.topRight.x) &&
    (F32.gt a.topRight.y b.bottomRight.y && F32.lt a.topRight.y b.topLeft.y)
  let bTopRightInside : Bool :=
    (F32.gt b.topRight.x a.topLeft.x && F32.lt b.topRight.x a.topRight.x) &&
    (F32.gt b.topRight.y a.bottomRight.y && F32.lt b.topRight.y a.topRight.y)
  aTopLeftInside || bTopLeftInside || aTopRightInside || bTopRightInside

/-- Shorthand: `fbox x₁ y₁ x₂ y₂` is the box `Box({x₁, y₁}, {x₂, y₂})` with finite
coordinates. -/
def fbox (x₁ y₁ x₂ y₂ : ℚ) : Box := ⟨⟨.fin x₁, .fin y₁⟩, ⟨.fin x₂, .fin y₂⟩⟩

/-! ## Specification-side vocabulary over binary32 -/

/-- A rational is a finite binary32 value when it is `m * 2^e` with an integer
significand `|m| < 2^24` and an exponent `-149 <= e <= 104`. -/
def isBinary32 (q : ℚ) : Prop :=
  ∃ m e : ℤ, |m| < 2 ^ 24 ∧ -149 ≤ e ∧ e ≤ 104 ∧ q = (m : ℚ) * (2 : ℚ) ^ e

/-- A value the program can receive: a finite binary32 value, an infinity or NaN. -/
def F32.valid : F32 → Prop
  | .fin q => isBinary32 q
  | _ => True

/-- A box all of whose four stored coordinates are values the program can receive. -/
def Box.valid (b : Box) : Prop :=
  (b.topLeft.x.valid ∧ b.topLeft.y.valid) ∧ (b.bottomRight.x.valid ∧ b.bottomRight.y.valid)

/-- The value is finite. -/
def F32.isFinite : F32 → Prop
  | .fin _ => True
  | _ => False

/-- The rational denoted by a finite value (and `0` for infinities and NaN; only
used next to `F32.isFinite`). -/
def F32.toRat : F32 → ℚ
  | .fin q => q
  | _ => 0

/-- All four stored coordinates of the box are finite. -/
def Box.isFinite (b : Box) : Prop :=
  (b.topLeft.x.isFinite ∧ b.topLeft.y.isFinite) ∧
    (b.bottomRight.x.isFinite ∧ b.bottomRight.y.isFinite)

/-- Corner test as the code evaluates it, with the right edge `c.topRight().x`
the code computes: `c.topLeft.x < P.x < c.topRight().x` and
`c.bottomRight.y < P.y < c.topLeft.y`, all four comparisons on `float`. -/
def cornerInside (P : Point) (c : Box) : Bool :=
  (F32.lt c.topLeft.x P.x && F32.lt P.x c.topRight.x) &&
  (F32.lt c.bottomRight.y P.y && F32.lt P.y c.topLeft.y)

/-- Corner hypothesis read in exact arithmetic: the coordinates are finite and
`b.topLeft.x < P.x < b.topLeft.x + b.bottomRight.x`, `b.bottomRight.y < P.y < b.topLeft.y`
hold of the rationals they denote, the sum being the exact one. -/
def insideSpanExact (P : Point) (b : Box) : Prop :=
  (P.x.isFinite ∧ P.y.isFinite ∧ b.isFinite) ∧
  (b.topLeft.x.toRat < P.x.toRat ∧ P.x.toRat < b.topLeft.x.toRat + b.bottomRight.x.toRat) ∧
  (b.bottomRight.y.toRat < P.y.toRat ∧ P.y.toRat < b.topLeft.y.toRat)

/-- Strict containment of `b` in `a` read in exact arithmetic: the coordinates are
finite, `b.bottomRight.x >= 0`, `b.bottomRight.y <= b.topLeft.y`,
`a.topLeft.x < b.topLeft.x`,
`b.topLeft.x + b.bottomRight.x < a.topLeft.x + a.bottomRight.x` (exact sums),
`a.bottomRight.y < b.bottomRight.y` and `b.topLeft.y < a.topLeft.y`. -/
def strictlyContainsExact (a b : Box) : Prop :=
  (a.isFinite ∧ b.isFinite) ∧
  (0 ≤ b.bottomRight.x.toRat ∧ b.bottomRight.y.toRat ≤ b.topLeft.y.toRat) ∧
  (a.topLeft.x.toRat < b.topLeft.x.toRat ∧
    b.topLeft.x.toRat + b.bottomRight.x.toRat < a.topLeft.x.toRat + a.bottomRight.x.toRat) ∧
  (a.bottomRight.y.toRat < b.bottomRight.y.toRat ∧ b.topLeft.y.toRat < a.topLeft.y.toRat)

/-- Strict containment of `b` in `a` on the edges the code computes:
`b.topLeft.x <= b.topRight().x`, `b.bottomRight.y <= b.topLeft.y`,
`a.topLeft.x < b.topLeft.x`, `b.topRight().x < a.topRight().x`,
`a.bottomRight.y < b.bottomRight.y` and `b.topLeft.y < a.topLeft.y`, all
comparisons on `float`. -/
def strictlyContains (a b : Box) : Bool :=
  (F32.le b.topLeft.x b.topRight.x && F32.le b.bottomRight.y b.topLeft.y) &&
  (F32.lt a.topLeft.x b.topLeft.x && F32.lt b.topRight.x a.topRight.x) &&
  (F32.lt a.bottomRight.y b.bottomRight.y && F32.lt b.topLeft.y a.topLeft.y)

/-- The `float` sum `x + y` is exact: both operands are finite and the result is
the finite value denoting the sum of the two rationals. -/
def exactSum : F32 → F32 → Prop
  | .fin p, .fin q => F32.add (.fin p) (.fin q) = .fin (p + q)
  | _, _ => False

/-- The map `T` of the translation claim over `float`: add `dx` to `topLeft.x`,
add `dy` to `topLeft.y` and to `bottomRight.y`, leave `bottomRight.x` unchanged. -/
def translate (dx dy : F32) (c : Box) : Box :=
  Box.mk (Point.mk (F32.add c.topLeft.x dx) (F32.add c.topLeft.y dy))
    (Point.mk c.bottomRight.x (F32.add c.bottomRight.y dy))

/-- No sum of the translation claim rounds: the three sums by which `T` moves `c`
and the `width()` sums of `c` and of `T c` are exact. -/
def translationExact (dx dy : F32) (c : Box) : Prop :=
  (exactSum c.topLeft.x dx ∧ exactSum c.topLeft.y dy ∧ exactSum c.bottomRight.y dy) ∧
  exactSum c.topLeft.x c.bottomRight.x ∧
  exactSum (translate dx dy c).topLeft.x (translate dx dy c).bottomRight.x

/-! ## Concrete boxes over binary32 -/

/-- Box `Box((16777216, 8), (0, 4))`; `16777216` is `2^24`. -/
def bigA : Box := fbox 16777216 8 0 4
/-- Box `Box((1, 10), (16777216, 0))`: the exact sum `1 + 2^24` is not a binary32
value. -/
def bigB : Box := fbox 1 10 16777216 0
/-- Box `Box((0, 3), (1, 1))`. -/
def shA : Box := fbox 0 3 1 1
/-- Box `Box((-2, 4), (3, 2))`. -/
def shB : Box := fbox (-2) 4 3 2
/-- Box `b1` of test cases "Box intersects 1" to "Box intersects 4". -/
def t1 : Box := fbox 2 3 4 1
/-- Box `b2` of test cases "Box intersects 1" and "Box intersects 2". -/
def t2 : Box := fbox 1 4 3 2
/-- Box `b2` of test cases "Box intersects 3" and "Box intersects 4". -/
def t3 : Box := fbox 3 4 5 2
/-- Box of test case "Box construct". -/
def tc : Box := fbox 1 2 3 4
/-- Outer box `Box((0, 10), (10, 0))`. -/
def outer : Box := fbox 0 10 10 0
/-- Inner box `Box((2, 8), (3, 4))`. -/
def inner : Box := fbox 2 8 3 4

end f32

/-! ## Exact model: unfolding lemmas -/

/-- The predicate as a proposition over the stored coordinates. -/
theorem intersects_iff (a b : Box) :
    intersects a b = true ↔
      ((b.topLeft_.x_ < a.topLeft_.x_ ∧ a.topLeft_.x_ < b.topLeft_.x_ + b.bottomRight_.x_) ∧
        (b.bottomRight_.y_ < a.topLeft_.y_ ∧ a.topLeft_.y_ < b.topLeft_.y_)) ∨
      ((a.topLeft_.x_ < b.topLeft_.x_ ∧ b.topLeft_.x_ < a.topLeft_.x_ + a.bottomRight_.x_) ∧
        (a.bottomRight_.y_ < b.topLeft_.y_ ∧ b.topLeft_.y_ < a.topLeft_.y_)) ∨
      ((b.topLeft_.x_ < a.topLeft_.x_ + a.bottomRight_.x_ ∧
          a.topLeft_.x_ + a.bottomRight_.x_ < b.topLeft_.x_ + b.bottomRight_.x_) ∧
        (b.bottomRight_.y_ < a.topLeft_.y_ ∧ a.topLeft_.y_ < b.topLeft_.y_)) ∨
      ((a.topLeft_.x_ < b.topLeft_.x_ + b.bottomRight_.x_ ∧
          b.topLeft_.x_ + b.bottomRight_.x_ < a.topLeft_.x_ + a.bottomRight_.x_) ∧
        (a.bottomRight_.y_ < b.topLeft_.y_ ∧ b.topLeft_.y_ < a.topLeft_.y_)) := by
  simp only [intersects, Box.topLeft, Box.bottomRight, Box.topRight, Box.width, Point.x,
    Point.y, gt_iff_lt, Bool.or_eq_true, Bool.and_eq_true, decide_eq_true_eq, or_assoc]

/-- The predicate is false exactly when all four corner tests fail. -/
theorem intersects_eq_false_iff (a b : Box) :
    intersects a b = false ↔ ¬ (intersects a b = true) := by
  cases intersects a b <;> simp

/-- The four tests are the same four tests after swapping the arguments. -/
theorem intersects_comm (a b : Box) : intersects a b = intersects b a := by
  rw [Bool.eq_iff_iff, intersects_iff, intersects_iff]
  constructor <;> rintro (h | h | h | h) <;>
    first
    | exact Or.inl h
    | exact Or.inr (Or.inl h)
    | exact Or.inr (Or.inr (Or.inl h))
    | exact Or.inr (Or.inr (Or.inr h))

/-! ## C1: characterisation by the four corner tests -/

/-- C1: `intersects a b` is true if and only if at least one of the four corner
tests holds (`a.topLeft()` strictly inside `b`, `b.topLeft()` strictly inside
`a`, `a.topRight()` strictly inside `b`, `b.topRight()` strictly inside `a`);
the upper vertical bound `a.topRight().y()` of the fourth test is `a.topLeft.y`. -/
theorem C1_intersects_iff_corner_tests (a b : Box) :
    (intersects a b = true ↔
      (strictlyInside a.topLeft b ∨ strictlyInside b.topLeft a ∨
        strictlyInside a.topRight b ∨ strictlyInside b.topRight a)) ∧
    a.topRight.y = a.topLeft.y := by
  refine ⟨?_, rfl⟩
  rw [intersects_iff]
  simp only [strictlyInside, Box.topLeft, Box.bottomRight, Box.topRight, Box.width, Point.x,
    Point.y]

/-! ## C2: boundary exclusion -/

/-- C2: if both boxes have `bottomRight.x >= 0` and the horizontal span of `a`
ends at or before the one of `b` begins, or both have `bottomRight.y <= topLeft.y`
and the top of `a` is at or below the bottom of `b`, then `intersects` is false
in both argument orders. -/
theorem C2_separated_not_intersecting (a b : Box)
    (h : (0 ≤ a.bottomRight.x ∧ 0 ≤ b.bottomRight.x ∧
            a.topLeft.x + a.bottomRight.x ≤ b.topLeft.x) ∨
         (a.bottomRight.y ≤ a.topLeft.y ∧ b.bottomRight.y ≤ b.topLeft.y ∧
            a.topLeft.y ≤ b.bottomRight.y)) :
    intersects a b = false ∧ intersects b a = false := by
  have key : ¬ (intersects a b = true) := by
    rw [intersects_iff]
    simp only [Box.topLeft, Box.bottomRight, Point.x, Point.y] at h
    rintro (⟨⟨h1, h2⟩, h3, h4⟩ | ⟨⟨h1, h2⟩, h3, h4⟩ | ⟨⟨h1, h2⟩, h3, h4⟩ | ⟨⟨h1, h2⟩, h3, h4⟩) <;>
      rcases h with ⟨ha, hb, hab⟩ | ⟨ha, hb, hab⟩ <;> linarith
  have hab : intersects a b = false := (intersects_eq_false_iff a b).2 key
  exact ⟨hab, by rw [intersects_comm b a]; exact hab⟩

/-- C2, instances: boxes sharing exactly an edge (`sqA`, `sqEdge`) and boxes
sharing a single corner point (`sqA`, `sqCorner`) are reported as not intersecting. -/
theorem C2_separated_not_intersecting_witness :
    (intersects sqA sqEdge = false ∧ intersects sqEdge sqA = false) ∧
    (intersects sqA sqCorner = false ∧ intersects sqCorner sqA = false) :=
  ⟨C2_separated_not_intersecting sqA sqEdge
      (Or.inl (by norm_num [sqA, sqEdge, box, Box.topLeft, Box.bottomRight, Point.x])),
   C2_separated_not_intersecting sqA sqCorner
      (Or.inr (by norm_num [sqA, sqCorner, box, Box.topLeft, Box.bottomRight, Point.y]))⟩

/-! ## C3: overlap is not always detected -/

/-- C3, refutation at a concrete input: `crossA` (region `[0,10] × [4,6]`) and
`crossB` (region `[4,6] × [0,10]`) have positive extent and overlapping regions,
yet `intersects crossA crossB` is false: no top corner of either box lies inside
the other. -/
theorem C3_cross_overlap_not_detected :
    (0 < crossA.bottomRight.x ∧ crossA.bottomRight.y < crossA.topLeft.y) ∧
    (0 < crossB.bottomRight.x ∧ crossB.bottomRight.y < crossB.topLeft.y) ∧
    max crossA.topLeft.x crossB.topLeft.x < min crossA.topRight.x crossB.topRight.x ∧
    max crossA.bottomRight.y crossB.bottomRight.y < min crossA.topLeft.y crossB.topLeft.y ∧
    intersects crossA crossB = false := by
  refine ⟨?_, ?_, ?_, ?_, ?_⟩
  · norm_num [crossA, box, Box.topLeft, Box.bottomRight, Point.x, Point.y]
  · norm_num [crossB, box, Box.topLeft, Box.bottomRight, Point.x, Point.y]
  · norm_num [crossA, crossB, box, Box.topLeft, Box.topRight, Box.width, Point.x]
  · norm_num [crossA, crossB, box, Box.topLeft, Box.bottomRight, Point.y]
  · rw [intersects_eq_false_iff, intersects_iff]
    norm_num [crossA, crossB, box]

/-- C3, amended: for boxes of positive extent whose regions overlap,
`intersects a b` is true exactly when the box with the strictly lower top edge
has its left edge strictly right of the other left edge or its right edge
strictly left of the other right edge. -/
theorem C3_overlap_detected_iff (a b : Box)
    (_ha : positiveExtent a) (_hb : positiveExtent b) (hov : regionsOverlap a b) :
    intersects a b = true ↔ lowerTopCornerInside a b := by
  rw [intersects_iff]
  simp only [positiveExtent, regionsOverlap, lowerTopCornerInside, Box.topLeft,
    Box.bottomRight, Box.topRight, Box.width, Point.x, Point.y, max_lt_iff, lt_min_iff]
    at hov ⊢
  obtain ⟨⟨⟨x1, x2⟩, x3, x4⟩, ⟨y1, y2⟩, y3, y4⟩ := hov
  constructor
  · rintro (⟨⟨h1, h2⟩, h3, h4⟩ | ⟨⟨h1, h2⟩, h3, h4⟩ | ⟨⟨h1, h2⟩, h3, h4⟩ | ⟨⟨h1, h2⟩, h3, h4⟩)
    · exact Or.inl ⟨h4, Or.inl h1⟩
    · exact Or.inr ⟨h4, Or.inl h1⟩
    · exact Or.inl ⟨h4, Or.inr h2⟩
    · exact Or.inr ⟨h4, Or.inr h2⟩
  · rintro (⟨hy, hx | hx⟩ | ⟨hy, hx | hx⟩)
    · exact Or.inl ⟨⟨hx, x3⟩, y2, hy⟩
    · exact Or.inr (Or.inr (Or.inl ⟨⟨x2, hx⟩, y2, hy⟩))
    · exact Or.inr (Or.inl ⟨⟨hx, x2⟩, y3, hy⟩)
    · exact Or.inr (Or.inr (Or.inr ⟨⟨x3, hx⟩, y3, hy⟩))

/-- C3, amended, instance: the boxes of test case "Box intersects 1" overlap and
satisfy the side condition, so the predicate is true on them. -/
theorem C3_overlap_detected_iff_witness :
    positiveExtent tb1 ∧ positiveExtent tb2 ∧ regionsOverlap tb1 tb2 ∧
    lowerTopCornerInside tb1 tb2 ∧ intersects tb1 tb2 = true :=
  have ha : positiveExtent tb1 := by
    norm_num [positiveExtent, tb1, box, Box.topLeft, Box.bottomRight, Point.x, Point.y]
  have hb : positiveExtent tb2 := by
    norm_num [positiveExtent, tb2, box, Box.topLeft, Box.bottomRight, Point.x, Point.y]
  have hov : regionsOverlap tb1 tb2 := by
    norm_num [regionsOverlap, tb1, tb2, box, Box.topLeft, Box.bottomRight, Box.topRight,
      Box.width, Point.x, Point.y]
  have hc : lowerTopCornerInside tb1 tb2 := by
    norm_num [lowerTopCornerInside, tb1, tb2, box, Box.topLeft, Box.topRight, Box.width,
      Point.x, Point.y]
  ⟨ha, hb, hov, hc, (C3_overlap_detected_iff tb1 tb2 ha hb hov).2 hc⟩

/-! ## C4: symmetry -/

/-- C4, refutation: there are no boxes `a`, `b` on which `intersects a b` and
`intersects b a` differ. -/
theorem C4_no_asymmetric_pair : ¬ ∃ a b : Box, intersects a b ≠ intersects b a := by
  rintro ⟨a, b, h⟩
  exact h (intersects_comm a b)

/-- C4, amended: `intersects` is symmetric in its arguments, for all boxes
`intersects a b = intersects b a`. -/
theorem C4_intersects_symmetric (a b : Box) : intersects a b = intersects b a := by
  rw [Bool.eq_iff_iff]
  constructor
  · intro h
    rw [intersects_comm b a]
    exact h
  · intro h
    rw [intersects_comm a b]
    exact h

/-! ## C6: stored points read as absolute corners -/

/-- C6, refutation at a concrete input: `sepA` has corners `(5,10)`, `(6,0)` and
`sepB` has corners `(7,5)`, `(8,1)`, so that
`sepA.topLeft.x <= sepA.bottomRight.x < sepB.topLeft.x <= sepB.bottomRight.x`;
the right edge used by the predicate for `sepA` is `topRight().x = 5 + 6 = 11`,
and `intersects` is true in both argument orders.  The one instance exercised by
test case "Box intersects 0" is reported as not intersecting. -/
theorem C6_horizontally_separated_reported_intersecting :
    (sepA.topLeft.x ≤ sepA.bottomRight.x ∧ sepA.bottomRight.x < sepB.topLeft.x ∧
      sepB.topLeft.x ≤ sepB.bottomRight.x) ∧
    sepA.topRight.x = 11 ∧
    (intersects sepA sepB = true ∧ intersects sepB sepA = true) ∧
    intersects t0b1 t0b2 = false := by
  refine ⟨?_, ?_, ⟨?_, ?_⟩, ?_⟩
  · norm_num [sepA, sepB, box, Box.topLeft, Box.bottomRight, Point.x]
  · norm_num [sepA, box, Box.topRight, Box.width, Point.x]
  · rw [intersects_iff]
    norm_num [sepA, sepB, box]
  · rw [intersects_iff]
    norm_num [sepA, sepB, box]
  · rw [intersects_eq_false_iff, intersects_iff]
    norm_num [t0b1, t0b2, box]

/-- C6, amended: with the right edge of each box read as the code computes it,
`topRight().x = width()`, boxes separated horizontally do not intersect; if
`a.topLeft.x <= a.topRight().x <= b.topLeft.x <= b.topRight().x` then
`intersects` is false in both argument orders. -/
theorem C6_separated_on_computed_edges (a b : Box)
    (h1 : a.topLeft.x ≤ a.topRight.x) (h2 : a.topRight.x ≤ b.topLeft.x)
    (h3 : b.topLeft.x ≤ b.topRight.x) :
    intersects a b = false ∧ intersects b a = false := by
  have key : ¬ (intersects a b = true) := by
    rw [intersects_iff]
    simp only [Box.topLeft, Box.topRight, Box.width, Point.x] at h1 h2 h3
    rintro (⟨⟨k1, _⟩, _⟩ | ⟨⟨_, k2⟩, _⟩ | ⟨⟨k1, _⟩, _⟩ | ⟨⟨_, k2⟩, _⟩)
    · exact absurd (lt_of_lt_of_le k1 (le_trans h1 h2)) (lt_irrefl _)
    · exact absurd (lt_of_lt_of_le k2 h2) (lt_irrefl _)
    · exact absurd (lt_of_lt_of_le k1 h2) (lt_irrefl _)
    · exact absurd (lt_of_lt_of_le k2 (le_trans h2 h3)) (lt_irrefl _)
  have hab : intersects a b = false := (intersects_eq_false_iff a b).2 key
  exact ⟨hab, by rw [intersects_comm b a]; exact hab⟩

/-- C6, amended, instance: the boxes of test case "Box intersects 0" have computed
edges `1 <= 3 <= 3 <= 7` and are reported as not intersecting in both orders. -/
theorem C6_separated_on_computed_edges_witness :
    (t0b1.topLeft.x ≤ t0b1.topRight.x ∧ t0b1.topRight.x ≤ t0b2.topLeft.x ∧
      t0b2.topLeft.x ≤ t0b2.topRight.x) ∧
    intersects t0b1 t0b2 = false ∧ intersects t0b2 t0b1 = false :=
  have h1 : t0b1.topLeft.x ≤ t0b1.topRight.x := by
    norm_num [t0b1, box, Box.topLeft, Box.topRight, Box.width, Point.x]
  have h2 : t0b1.topRight.x ≤ t0b2.topLeft.x := by
    norm_num [t0b1, t0b2, box, Box.topLeft, Box.topRight, Box.width, Point.x]
  have h3 : t0b2.topLeft.x ≤ t0b2.topRight.x := by
    norm_num [t0b2, box, Box.topLeft, Box.topRight, Box.width, Point.x]
  ⟨⟨h1, h2, h3⟩, C6_separated_on_computed_edges t0b1 t0b2 h1 h2 h3⟩

/-! ## C8, C9: construction round-trips -/

/-- C8: point construction round-trips, `Point(x, y).x() = x` and
`Point(x, y).y() = y`. -/
theorem C8_point_roundtrip (x y : ℚ) :
    (Point.mk x y).x = x ∧ (Point.mk x y).y = y :=
  ⟨rfl, rfl⟩

/-- C9: box construction round-trips its two stored corners without reordering,
`Box(p, q).topLeft() = p` and `Box(p, q).bottomRight() = q`, coordinate by
coordinate. -/
theorem C9_box_roundtrip (p q : Point) :
    ((Box.mk p q).topLeft = p ∧ (Box.mk p q).bottomRight = q) ∧
    ((Box.mk p q).topLeft.x = p.x ∧ (Box.mk p q).topLeft.y = p.y) ∧
    ((Box.mk p q).bottomRight.x = q.x ∧ (Box.mk p q).bottomRight.y = q.y) :=
  ⟨⟨rfl, rfl⟩, ⟨rfl, rfl⟩, ⟨rfl, rfl⟩⟩

/-! ## C11: which axes follow the sum convention -/

/-- C11, refutation at a concrete input: on the boxes of test case
"Box intersects 1" the predicate is true, while the variant that takes the lower
vertical bound from `height()` is false (`tb2.height() = 6` lies above
`tb2.topLeft.y = 4`, `tb1.height() = 4` above `tb1.topLeft.y = 3`). -/
theorem C11_derived_variant_differs :
    intersects tb1 tb2 = true ∧ intersectsDerived tb1 tb2 = false ∧
    tb1.height = 4 ∧ tb2.height = 6 := by
  refine ⟨?_, ?_, ?_, ?_⟩
  · rw [intersects_iff]
    norm_num [tb1, tb2, box]
  · norm_num [intersectsDerived, cornerInsideDerived, tb1, tb2, box, Box.topLeft,
      Box.topRight, Box.width, Box.height, Point.x, Point.y]
  · norm_num [tb1, box, Box.height, Point.y]
  · norm_num [tb2, box, Box.height, Point.y]

/-- C11, amended: the predicate follows the sum convention on the horizontal
axis only; for all boxes `intersects a b` equals the variant that takes the
horizontal bounds from `topLeft.x` and `width()` and the vertical bounds from the
stored `bottomRight.y` and `topLeft.y`. -/
theorem C11_intersects_eq_width_only_variant (a b : Box) :
    intersects a b = intersectsWidthOnly a b := by
  rw [Bool.eq_iff_iff, intersects_iff]
  simp only [intersectsWidthOnly, cornerInsideWidthOnly, Box.topLeft, Box.bottomRight,
    Box.topRight, Box.width, Point.x, Point.y, gt_iff_lt, Bool.or_eq_true, Bool.and_eq_true,
    decide_eq_true_eq, or_assoc]

/-! ## C12: irreflexivity -/

/-- C12: for every box `a`, with no assumption on its coordinates,
`intersects a a` is false. -/
theorem C12_intersects_irreflexive (a : Box) : intersects a a = false := by
  rw [intersects_eq_false_iff, intersects_iff]
  rintro (⟨⟨h1, _⟩, _⟩ | ⟨⟨h1, _⟩, _⟩ | ⟨⟨_, h2⟩, _⟩ | ⟨⟨_, h2⟩, _⟩)
  · exact lt_irrefl _ h1
  · exact lt_irrefl _ h1
  · exact lt_irrefl _ h2
  · exact lt_irrefl _ h2

/-! ## C13: a reported intersection needs a box of positive extent -/

/-- C13: if `intersects a b` is true then `a` or `b` has positive extent on both
axes (`bottomRight.x > 0` and `bottomRight.y < topLeft.y`); consequently two
boxes that both have `bottomRight.y >= topLeft.y` are never reported as
intersecting, whatever their x coordinates. -/
theorem C13_intersection_needs_positive_extent (a b : Box) :
    (intersects a b = true → positiveExtent a ∨ positiveExtent b) ∧
    (a.topLeft.y ≤ a.bottomRight.y ∧ b.topLeft.y ≤ b.bottomRight.y →
      intersects a b = false) := by
  have key : intersects a b = true → positiveExtent a ∨ positiveExtent b := by
    rw [intersects_iff]
    simp only [positiveExtent, Box.topLeft, Box.bottomRight, Point.x, Point.y]
    rintro (⟨⟨h1, h2⟩, h3, h4⟩ | ⟨⟨h1, h2⟩, h3, h4⟩ | ⟨⟨h1, h2⟩, h3, h4⟩ | ⟨⟨h1, h2⟩, h3, h4⟩)
    · exact Or.inr ⟨by linarith, by linarith⟩
    · exact Or.inl ⟨by linarith, by linarith⟩
    · exact Or.inr ⟨by linarith, by linarith⟩
    · exact Or.inl ⟨by linarith, by linarith⟩
  refine ⟨key, ?_⟩
  rintro ⟨hay, hby⟩
  rw [intersects_eq_false_iff]
  intro h
  rcases key h with hp | hp
  · exact absurd hp.2 (not_lt.2 hay)
  · exact absurd hp.2 (not_lt.2 hby)

/-- C13, instances: on the boxes of test case "Box intersects 1" the predicate is
true and `tb1` has positive extent; the boxes of test cases "Box construct" and
"Box intersects 0" have `bottomRight.y >= topLeft.y` and are reported as not
intersecting. -/
theorem C13_intersection_needs_positive_extent_witness :
    (intersects tb1 tb2 = true ∧ (positiveExtent tb1 ∨ positiveExtent tb2)) ∧
    ((t0b1.topLeft.y ≤ t0b1.bottomRight.y ∧ t0b2.topLeft.y ≤ t0b2.bottomRight.y) ∧
      intersects t0b1 t0b2 = false) ∧
    ((tcBox.topLeft.y ≤ tcBox.bottomRight.y ∧ t0b1.topLeft.y ≤ t0b1.bottomRight.y) ∧
      intersects tcBox t0b1 = false) :=
  have h12 : intersects tb1 tb2 = true := by
    rw [intersects_iff]
    norm_num [tb1, tb2, box]
  have h0 : t0b1.topLeft.y ≤ t0b1.bottomRight.y ∧ t0b2.topLeft.y ≤ t0b2.bottomRight.y := by
    norm_num [t0b1, t0b2, box, Box.topLeft, Box.bottomRight, Point.y]
  have hc : tcBox.topLeft.y ≤ tcBox.bottomRight.y ∧ t0b1.topLeft.y ≤ t0b1.bottomRight.y := by
    norm_num [tcBox, t0b1, box, Box.topLeft, Box.bottomRight, Point.y]
  ⟨⟨h12, (C13_intersection_needs_positive_extent tb1 tb2).1 h12⟩,
   ⟨h0, (C13_intersection_needs_positive_extent t0b1 t0b2).2 h0⟩,
   ⟨hc, (C13_intersection_needs_positive_extent tcBox t0b1).2 hc⟩⟩

namespace f32

/-! ## Binary32: order and rounding lemmas -/

/-- A value below or equal to one strictly below a third is strictly below it. -/
theorem F32.lt_of_le_of_lt {x y z : F32} (h1 : F32.le x y = true) (h2 : F32.lt y z = true) :
    F32.lt x z = true := by
  cases x <;> cases y <;> cases z <;> simp_all [F32.le, F32.lt]
  linarith

/-- A value strictly below one below or equal to a third is strictly below it. -/
theorem F32.lt_of_lt_of_le {x y z : F32} (h1 : F32.lt x y = true) (h2 : F32.le y z = true) :
    F32.lt x z = true := by
  cases x <;> cases y <;> cases z <;> simp_all [F32.le, F32.lt]
  linarith

/-- The binade of `q` is `e` when `2^e <= |q| < 2^(e+1)` and `e` is a normal exponent. -/
theorem expo_eq {q : ℚ} (e : ℤ) (he1 : -126 ≤ e) (he2 : e ≤ 127)
    (h1 : (2 : ℚ) ^ e ≤ |q|) (h2 : |q| < (2 : ℚ) ^ (e + 1)) : expo q = e := by
  have hpos : (0 : ℚ) < |q| := lt_of_lt_of_le (zpow_pos (by norm_num) e) h1
  have hlog : Int.log 2 |q| = e := by
    apply le_antisymm
    · have h := (Int.lt_zpow_iff_log_lt (b := 2) (by norm_num) hpos).1 (by exact_mod_cast h2)
      omega
    · exact (Int.zpow_le_iff_le_log (b := 2) (by norm_num) hpos).1 (by exact_mod_cast h1)
  unfold expo
  rw [hlog]
  omega

/-- An integer rounds to itself. -/
theorem roundHalfEven_intCast (n : ℤ) : roundHalfEven (n : ℚ) = n := by
  simp [roundHalfEven]

/-- A rational that is an integer multiple of the spacing of its binade, within
the finite range, is returned unchanged by the rounding. -/
theorem round32_exact {q : ℚ} (e n : ℤ) (he1 : -126 ≤ e) (he2 : e ≤ 127)
    (h1 : (2 : ℚ) ^ e ≤ |q|) (h2 : |q| < (2 : ℚ) ^ (e + 1))
    (hq : q = (n : ℚ) * (2 : ℚ) ^ (e - 23)) (hmax : |q| ≤ maxFinite) :
    round32 q = F32.fin q := by
  have hu : ulp q = (2 : ℚ) ^ (e - 23) := by rw [ulp, expo_eq e he1 he2 h1 h2]
  have hpos : (0 : ℚ) < (2 : ℚ) ^ (e - 23) := zpow_pos (by norm_num) _
  have hdiv : q / ulp q = (n : ℚ) := by
    rw [hu, hq]; field_simp
  have hr : ((roundHalfEven (q / ulp q) : ℤ) : ℚ) * ulp q = q := by
    rw [hdiv, roundHalfEven_intCast, hu, ← hq]
  have habs := abs_le.1 hmax
  unfold round32
  rw [hr, if_neg (not_lt.2 habs.2), if_neg (not_lt.2 habs.1)]

/-- The exact sum `2^24 + 1` lies halfway between the binary32 values `2^24` and
`2^24 + 2` and rounds to the even one, `2^24`. -/
theorem round32_16777217 : round32 16777217 = F32.fin 16777216 := by
  have he : expo 16777217 = 24 :=
    expo_eq 24 (by norm_num) (by norm_num) (by norm_num) (by norm_num)
  have hu : ulp 16777217 = 2 := by rw [ulp, he]; norm_num
  have hf : ⌊(16777217 / 2 : ℚ)⌋ = 8388608 := by
    rw [Int.floor_eq_iff]; norm_num
  have hr : roundHalfEven (16777217 / 2 : ℚ) = 8388608 := by
    unfold roundHalfEven
    rw [hf]
    norm_num
  unfold round32
  rw [hu, hr]
  norm_num [maxFinite]

/-- Rounding of the small integers met in the examples. -/
theorem round32_1 : round32 1 = F32.fin 1 :=
  round32_exact 0 8388608 (by norm_num) (by norm_num) (by norm_num) (by norm_num)
    (by norm_num) (by norm_num [maxFinite])

/-- Rounding of `2`. -/
theorem round32_2 : round32 2 = F32.fin 2 :=
  round32_exact 1 8388608 (by norm_num) (by norm_num) (by norm_num) (by norm_num)
    (by norm_num) (by norm_num [maxFinite])

/-- Rounding of `3`. -/
theorem round32_3 : round32 3 = F32.fin 3 :=
  round32_exact 1 12582912 (by norm_num) (by norm_num) (by norm_num) (by norm_num)
    (by norm_num) (by norm_num [maxFinite])

/-- Rounding of `4`. -/
theorem round32_4 : round32 4 = F32.fin 4 :=
  round32_exact 2 8388608 (by norm_num) (by norm_num) (by norm_num) (by norm_num)
    (by norm_num) (by norm_num [maxFinite])

/-- Rounding of `5`. -/
theorem round32_5 : round32 5 = F32.fin 5 :=
  round32_exact 2 10485760 (by norm_num) (by norm_num) (by norm_num) (by norm_num)
    (by norm_num) (by norm_num [maxFinite])

/-- Rounding of `6`. -/
theorem round32_6 : round32 6 = F32.fin 6 :=
  round32_exact 2 12582912 (by norm_num) (by norm_num) (by norm_num) (by norm_num)
    (by norm_num) (by norm_num [maxFinite])

/-- Rounding of `7`. -/
theorem round32_7 : round32 7 = F32.fin 7 :=
  round32_exact 2 14680064 (by norm_num) (by norm_num) (by norm_num) (by norm_num)
    (by norm_num) (by norm_num [maxFinite])

/-- Rounding of `8`. -/
theorem round32_8 : round32 8 = F32.fin 8 :=
  round32_exact 3 8388608 (by norm_num) (by norm_num) (by norm_num) (by norm_num)
    (by norm_num) (by norm_num [maxFinite])

/-- Rounding of `9`. -/
theorem round32_9 : round32 9 = F32.fin 9 :=
  round32_exact 3 9437184 (by norm_num) (by norm_num) (by norm_num) (by norm_num)
    (by norm_num) (by norm_num [maxFinite])

/-- Rounding of `10`. -/
theorem round32_10 : round32 10 = F32.fin 10 :=
  round32_exact 3 10485760 (by norm_num) (by norm_num) (by norm_num) (by norm_num)
    (by norm_num) (by norm_num [maxFinite])

/-- Rounding of `2^24 - 2`. -/
theorem round32_16777214 : round32 16777214 = F32.fin 16777214 :=
  round32_exact 23 16777214 (by norm_num) (by norm_num) (by norm_num) (by norm_num)
    (by norm_num) (by norm_num [maxFinite])

/-- Rounding of `2^24`. -/
theorem round32_16777216 : round32 16777216 = F32.fin 16777216 :=
  round32_exact 24 8388608 (by norm_num) (by norm_num) (by norm_num) (by norm_num)
    (by norm_num) (by norm_num [maxFinite])

/-- An integer below `2^24` in absolute value is a binary32 value. -/
theorem isBinary32_int (m : ℤ) (h : |m| < 2 ^ 24) : isBinary32 (m : ℚ) :=
  ⟨m, 0, h, by norm_num, by norm_num, by simp⟩

/-- The value `2^24` is a binary32 value. -/
theorem isBinary32_16777216 : isBinary32 16777216 :=
  ⟨8388608, 1, by norm_num, by norm_num, by norm_num, by norm_num⟩

/-- The `float` sum of two finite values is the rounded exact sum. -/
theorem F32.add_fin (p q : ℚ) : F32.add (.fin p) (.fin q) = round32 (p + q) := rfl

/-- Comparison `<` of two finite values. -/
theorem F32.lt_fin (p q : ℚ) : F32.lt (.fin p) (.fin q) = decide (p < q) := rfl

/-- Comparison `<=` of two finite values. -/
theorem F32.le_fin (p q : ℚ) : F32.le (.fin p) (.fin q) = decide (p ≤ q) := rfl

/-- The x coordinate of `topRight()` is the `float` sum of the stored x coordinates. -/
theorem topRight_x (b : Box) : b.topRight.x = F32.add b.topLeft_.x_ b.bottomRight_.x_ := by
  cases b; rfl

/-- The value of `width()` is the `float` sum of the stored x coordinates. -/
theorem width_eq (b : Box) : b.width = F32.add b.topLeft_.x_ b.bottomRight_.x_ := by
  cases b; rfl

/-- The value of `height()` is the `float` sum of the stored y coordinates. -/
theorem height_eq (b : Box) : b.height = F32.add b.topLeft_.y_ b.bottomRight_.y_ := by
  cases b; rfl

/-- The corner test over the stored coordinates. -/
theorem cornerInside_iff (P : Point) (c : Box) :
    cornerInside P c = true ↔
      (F32.lt c.topLeft_.x_ P.x_ = true ∧
        F32.lt P.x_ (F32.add c.topLeft_.x_ c.bottomRight_.x_) = true) ∧
      (F32.lt c.bottomRight_.y_ P.y_ = true ∧ F32.lt P.y_ c.topLeft_.y_ = true) := by
  simp only [cornerInside, Box.topLeft, Box.bottomRight, Box.topRight, Box.width, Point.x,
    Point.y, Bool.and_eq_true]

/-- The predicate as a proposition over the stored coordinates. -/
theorem intersects_iff32 (a b : Box) :
    intersects a b = true ↔
      ((F32.lt b.topLeft_.x_ a.topLeft_.x_ = true ∧
          F32.lt a.topLeft_.x_ (F32.add b.topLeft_.x_ b.bottomRight_.x_) = true) ∧
        (F32.lt b.bottomRight_.y_ a.topLeft_.y_ = true ∧
          F32.lt a.topLeft_.y_ b.topLeft_.y_ = true)) ∨
      ((F32.lt a.topLeft_.x_ b.topLeft_.x_ = true ∧
          F32.lt b.topLeft_.x_ (F32.add a.topLeft_.x_ a.bottomRight_.x_) = true) ∧
        (F32.lt a.bottomRight_.y_ b.topLeft_.y_ = true ∧
          F32.lt b.topLeft_.y_ a.topLeft_.y_ = true)) ∨
      ((F32.lt b.topLeft_.x_ (F32.add a.topLeft_.x_ a.bottomRight_.x_) = true ∧
          F32.lt (F32.add a.topLeft_.x_ a.bottomRight_.x_)
            (F32.add b.topLeft_.x_ b.bottomRight_.x_) = true) ∧
        (F32.lt b.bottomRight_.y_ a.topLeft_.y_ = true ∧
          F32.lt a.topLeft_.y_ b.topLeft_.y_ = true)) ∨
      ((F32.lt a.topLeft_.x_ (F32.add b.topLeft_.x_ b.bottomRight_.x_) = true ∧
          F32.lt (F32.add b.topLeft_.x_ b.bottomRight_.x_)
            (F32.add a.topLeft_.x_ a.bottomRight_.x_) = true) ∧
        (F32.lt a.bottomRight_.y_ b.topLeft_.y_ = true ∧
          F32.lt b.topLeft_.y_ a.topLeft_.y_ = true)) := by
  simp only [intersects, Box.topLeft, Box.bottomRight, Box.topRight, Box.width, Point.x,
    Point.y, F32.gt, Bool.or_eq_true, Bool.and_eq_true, or_assoc]

/-- Exactness of a `float` sum, spelled out. -/
theorem exactSum_iff (x y : F32) :
    exactSum x y ↔
      ∃ p q : ℚ, x = F32.fin p ∧ y = F32.fin q ∧ round32 (p + q) = F32.fin (p + q) := by
  cases x <;> cases y <;> simp [exactSum, F32.add_fin]

/-- The boxes `bigA` and `bigB` consist of binary32 values. -/
theorem bigA_bigB_valid : bigA.valid ∧ bigB.valid := by
  refine ⟨⟨⟨isBinary32_16777216, ?_⟩, ?_, ?_⟩, ⟨?_, ?_⟩, isBinary32_16777216, ?_⟩
  · exact_mod_cast isBinary32_int 8 (by norm_num)
  · exact_mod_cast isBinary32_int 0 (by norm_num)
  · exact_mod_cast isBinary32_int 4 (by norm_num)
  · exact_mod_cast isBinary32_int 1 (by norm_num)
  · exact_mod_cast isBinary32_int 10 (by norm_num)
  · exact_mod_cast isBinary32_int 0 (by norm_num)

/-- On `bigA` and `bigB` all four corner tests fail. -/
theorem bigA_bigB_not_intersecting : intersects bigA bigB = false := by
  rw [Bool.eq_false_iff, Ne, intersects_iff32]
  simp only [bigA, bigB, fbox, F32.add_fin]
  norm_num [round32_16777217, round32_16777216, F32.lt_fin]

/-! ## Binary32: the predicate -/

/-- The predicate is the disjunction of the four corner tests, in the order of
the source. -/
theorem intersects_eq_corner_tests (a b : Box) :
    intersects a b =
      (cornerInside a.topLeft b || cornerInside b.topLeft a ||
        cornerInside a.topRight b || cornerInside b.topRight a) := rfl

/-- Swapping the arguments permutes the four corner tests. -/
theorem intersects_comm32 (a b : Box) : intersects a b = intersects b a := by
  rw [intersects_eq_corner_tests, intersects_eq_corner_tests]
  cases cornerInside a.topLeft b <;> cases cornerInside b.topLeft a <;>
    cases cornerInside a.topRight b <;> cases cornerInside b.topRight a <;> rfl

/-! ## C5: a top corner of `a` inside `b` -/

/-- C5, refutation at a concrete input: `bigA.topLeft() = (2^24, 8)` satisfies the
corner hypothesis against `bigB = Box((1,10),(2^24,0))` in exact arithmetic
(`1 < 2^24 < 1 + 2^24`, `0 < 8 < 10`), all coordinates are binary32 values, and
`intersects` is false in both argument orders: `bigB.width()` is the `float` sum
`1 + 2^24`, which rounds to `2^24`. -/
theorem C5_exact_span_corner_not_detected :
    (bigA.valid ∧ bigB.valid) ∧ insideSpanExact bigA.topLeft bigB ∧
    bigB.topRight.x = F32.fin 16777216 ∧
    intersects bigA bigB = false ∧ intersects bigB bigA = false := by
  have hw : bigB.topRight.x = F32.fin 16777216 := by
    rw [topRight_x]
    simp only [bigB, fbox, F32.add_fin]
    norm_num [round32_16777217]
  refine ⟨bigA_bigB_valid, ?_, hw, bigA_bigB_not_intersecting, ?_⟩
  · norm_num [insideSpanExact, Box.isFinite, F32.isFinite, F32.toRat, bigA, bigB, fbox,
      Box.topLeft, Box.bottomRight, Point.x, Point.y]
  · rw [intersects_comm32]; exact bigA_bigB_not_intersecting

/-- C5, amended: if `a.topLeft()` or `a.topRight()` lies strictly inside `b`, the
right edge of `b` being the `b.topRight().x` the code computes and the
comparisons those of `float`, then `intersects a b` and `intersects b a` are both
true. -/
theorem C5_top_corner_inside_computed_span (a b : Box)
    (h : cornerInside a.topLeft b = true ∨ cornerInside a.topRight b = true) :
    intersects a b = true ∧ intersects b a = true := by
  have hab : intersects a b = true := by
    rw [intersects_eq_corner_tests]
    rcases h with h | h <;> simp [h]
  exact ⟨hab, by rw [intersects_comm32]; exact hab⟩

/-- C5, amended, instances: the configurations of test cases "Box intersects 1"/"2"
(`t1.topLeft()` inside `t2`) and "Box intersects 3"/"4" (`t1.topRight()` inside
`t3`). -/
theorem C5_top_corner_inside_computed_span_witness :
    (cornerInside t1.topLeft t2 = true ∧ intersects t1 t2 = true ∧
      intersects t2 t1 = true) ∧
    (cornerInside t1.topRight t3 = true ∧ intersects t1 t3 = true ∧
      intersects t3 t1 = true) :=
  have h1 : cornerInside t1.topLeft t2 = true := by
    rw [cornerInside_iff]
    simp only [t1, t2, fbox, Box.topLeft, F32.add_fin]
    norm_num [round32_4, F32.lt_fin]
  have h3 : cornerInside t1.topRight t3 = true := by
    rw [cornerInside_iff]
    simp only [t1, t3, fbox, Box.topRight, width_eq, Point.x, Point.y, F32.add_fin]
    norm_num [round32_6, round32_8, F32.lt_fin]
  ⟨⟨h1, C5_top_corner_inside_computed_span t1 t2 (Or.inl h1)⟩,
   ⟨h3, C5_top_corner_inside_computed_span t1 t3 (Or.inr h3)⟩⟩

/-! ## C7: derived values -/

/-- C7, refutation at a concrete input: for `bigB = Box((1,10),(2^24,0))` the exact
sum `topLeft.x + bottomRight.x` is `16777217`, while `bigB.width()` is `16777216`. -/
theorem C7_width_differs_from_exact_sum :
    bigB.valid ∧ bigB.topLeft.x.toRat + bigB.bottomRight.x.toRat = 16777217 ∧
    bigB.width = F32.fin 16777216 ∧
    bigB.width ≠ F32.fin (bigB.topLeft.x.toRat + bigB.bottomRight.x.toRat) := by
  have hs : bigB.topLeft.x.toRat + bigB.bottomRight.x.toRat = 16777217 := by
    norm_num [bigB, fbox, Box.topLeft, Box.bottomRight, Point.x, F32.toRat]
  have hw : bigB.width = F32.fin 16777216 := by
    rw [width_eq]
    simp only [bigB, fbox, F32.add_fin]
    norm_num [round32_16777217]
  refine ⟨bigA_bigB_valid.2, hs, hw, ?_⟩
  rw [hw, hs]
  intro h
  injection h with h
  norm_num at h

/-- C7, amended: for every pair of points the box `b = Box(topLeft, bottomRight)`
has `b.width()` equal to the `float` sum of `topLeft.x` and `bottomRight.x` (the
exact sum rounded to binary32), `b.height()` equal to the `float` sum of
`topLeft.y` and `bottomRight.y`, `b.topRight() = (b.width(), topLeft.y)` and
`b.bottomLeft() = (topLeft.x, b.height())`; `Box((1,2),(3,4))` has width 4 and
height 6. -/
theorem C7_box_derived_values_binary32 (topLeft bottomRight : Point) :
    (Box.mk topLeft bottomRight).width = F32.add topLeft.x bottomRight.x ∧
    (Box.mk topLeft bottomRight).height = F32.add topLeft.y bottomRight.y ∧
    (Box.mk topLeft bottomRight).topRight =
      Point.mk (Box.mk topLeft bottomRight).width topLeft.y ∧
    (Box.mk topLeft bottomRight).bottomLeft =
      Point.mk topLeft.x (Box.mk topLeft bottomRight).height ∧
    tc.width = F32.fin 4 ∧ tc.height = F32.fin 6 := by
  refine ⟨rfl, rfl, rfl, rfl, ?_, ?_⟩
  · rw [width_eq]
    simp only [tc, fbox, F32.add_fin]
    norm_num [round32_4]
  · rw [height_eq]
    simp only [tc, fbox, F32.add_fin]
    norm_num [round32_6]

/-! ## C10: strict containment -/

/-- C10, refutation at a concrete input: `bigA = Box((2^24,8),(0,4))` satisfies the
six containment hypotheses against `bigB = Box((1,10),(2^24,0))` in exact
arithmetic (in particular `2^24 + 0 < 1 + 2^24`), all coordinates are binary32
values, and `intersects` is false in both argument orders: both computed right
edges are `2^24`. -/
theorem C10_exact_containment_not_detected :
    (bigB.valid ∧ bigA.valid) ∧ strictlyContainsExact bigB bigA ∧
    (bigB.topRight.x = F32.fin 16777216 ∧ bigA.topRight.x = F32.fin 16777216) ∧
    intersects bigB bigA = false ∧ intersects bigA bigB = false := by
  have hwB : bigB.topRight.x = F32.fin 16777216 := by
    rw [topRight_x]
    simp only [bigB, fbox, F32.add_fin]
    norm_num [round32_16777217]
  have hwA : bigA.topRight.x = F32.fin 16777216 := by
    rw [topRight_x]
    simp only [bigA, fbox, F32.add_fin]
    norm_num [round32_16777216]
  refine ⟨⟨bigA_bigB_valid.2, bigA_bigB_valid.1⟩, ?_, ⟨hwB, hwA⟩, ?_,
    bigA_bigB_not_intersecting⟩
  · norm_num [strictlyContainsExact, Box.isFinite, F32.isFinite, F32.toRat, bigA, bigB, fbox,
      Box.topLeft, Box.bottomRight, Point.x, Point.y]
  · rw [intersects_comm32]; exact bigA_bigB_not_intersecting

/-- C10, amended: if `b` has `topLeft.x <= topRight().x` and
`bottomRight.y <= topLeft.y` and lies strictly inside `a` on the edges the code
computes (`a.topLeft.x < b.topLeft.x`, `b.topRight().x < a.topRight().x`,
`a.bottomRight.y < b.bottomRight.y`, `b.topLeft.y < a.topLeft.y`, comparisons of
`float`), then `intersects a b` and `intersects b a` are both true. -/
theorem C10_containment_on_computed_edges (a b : Box) (h : strictlyContains a b = true) :
    intersects a b = true ∧ intersects b a = true := by
  simp only [strictlyContains, Bool.and_eq_true] at h
  obtain ⟨⟨⟨hbx, hby⟩, hl, hr⟩, hb, ht⟩ := h
  have hx : F32.lt b.topLeft.x a.topRight.x = true := F32.lt_of_le_of_lt hbx hr
  have hy : F32.lt a.bottomRight.y b.topLeft.y = true := F32.lt_of_lt_of_le hb hby
  have hin : cornerInside b.topLeft a = true := by
    simp only [cornerInside, Bool.and_eq_true]
    exact ⟨⟨hl, hx⟩, hy, ht⟩
  have hab : intersects a b = true := by
    rw [intersects_eq_corner_tests]
    simp [hin]
  exact ⟨hab, by rw [intersects_comm32]; exact hab⟩

/-- C10, amended, instance: `inner = Box((2,8),(3,4))` lies strictly inside
`outer = Box((0,10),(10,0))` on the computed edges, and the predicate is true in
both orders. -/
theorem C10_containment_on_computed_edges_witness :
    strictlyContains outer inner = true ∧
    intersects outer inner = true ∧ intersects inner outer = true :=
  have h : strictlyContains outer inner = true := by
    simp only [strictlyContains, Bool.and_eq_true, topRight_x]
    simp only [outer, inner, fbox, Box.topLeft, Box.bottomRight, Point.x, Point.y,
      F32.add_fin]
    norm_num [round32_5, round32_10, F32.lt_fin, F32.le_fin]
  ⟨h, C10_containment_on_computed_edges outer inner h⟩

/-! ## C14: translation -/

/-- C14, refutation at a concrete input: for `shA = Box((0,3),(1,1))`,
`shB = Box((-2,4),(3,2))`, `dx = 2^24` and `dy = 0` all values are binary32 values
and the translation itself is exact (`T shA = Box((2^24,3),(1,1))`,
`T shB = Box((2^24 - 2,4),(3,2))`), yet `intersects shA shB` is true and
`intersects (T shA) (T shB)` is false: both translated right edges are the
`float` sum rounding `2^24 + 1` to `2^24`. -/
theorem C14_translation_changes_result :
    (shA.valid ∧ shB.valid ∧ (F32.fin 16777216).valid ∧ (F32.fin 0).valid) ∧
    (translate (F32.fin 16777216) (F32.fin 0) shA = fbox 16777216 3 1 1 ∧
      translate (F32.fin 16777216) (F32.fin 0) shB = fbox 16777214 4 3 2) ∧
    intersects shA shB = true ∧
    intersects (translate (F32.fin 16777216) (F32.fin 0) shA)
      (translate (F32.fin 16777216) (F32.fin 0) shB) = false := by
  have hvA : shA.valid := by
    refine ⟨⟨?_, ?_⟩, ?_, ?_⟩
    · exact_mod_cast isBinary32_int 0 (by norm_num)
    · exact_mod_cast isBinary32_int 3 (by norm_num)
    · exact_mod_cast isBinary32_int 1 (by norm_num)
    · exact_mod_cast isBinary32_int 1 (by norm_num)
  have hvB : shB.valid := by
    refine ⟨⟨?_, ?_⟩, ?_, ?_⟩
    · exact_mod_cast isBinary32_int (-2) (by norm_num)
    · exact_mod_cast isBinary32_int 4 (by norm_num)
    · exact_mod_cast isBinary32_int 3 (by norm_num)
    · exact_mod_cast isBinary32_int 2 (by norm_num)
  have hv0 : (F32.fin 0).valid := by
    exact_mod_cast isBinary32_int 0 (by norm_num)
  have hTA : translate (F32.fin 16777216) (F32.fin 0) shA = fbox 16777216 3 1 1 := by
    simp only [translate, shA, fbox, Box.topLeft, Box.bottomRight, Point.x, Point.y,
      F32.add_fin]
    norm_num [round32_16777216, round32_3, round32_1]
  have hTB : translate (F32.fin 16777216) (F32.fin 0) shB = fbox 16777214 4 3 2 := by
    simp only [translate, shB, fbox, Box.topLeft, Box.bottomRight, Point.x, Point.y,
      F32.add_fin]
    norm_num [round32_16777214, round32_4, round32_2]
  refine ⟨⟨hvA, hvB, isBinary32_16777216, hv0⟩, ⟨hTA, hTB⟩, ?_, ?_⟩
  · rw [intersects_iff32]
    simp only [shA, shB, fbox, F32.add_fin]
    norm_num [round32_1, F32.lt_fin]
  · rw [hTA, hTB, Bool.eq_false_iff, Ne, intersects_iff32]
    simp only [fbox, F32.add_fin]
    norm_num [round32_16777217, F32.lt_fin]

/-- C14, amended: translation invariance holds whenever no sum involved rounds;
for all boxes `a`, `b` and all `dx`, `dy` such that, for each of the two boxes, the
three sums by which `T` moves it and the `width()` sums before and after the move
are exact (finite operands, result the exact sum),
`intersects (T a) (T b) = intersects a b`, where `T` adds `dx` to `topLeft.x`,
adds `dy` to `topLeft.y` and to `bottomRight.y`, and leaves `bottomRight.x`
unchanged. -/
theorem C14_translation_invariant_when_exact (a b : Box) (dx dy : F32)
    (ha : translationExact dx dy a) (hb : translationExact dx dy b) :
    intersects (translate dx dy a) (translate dx dy b) = intersects a b := by
  obtain ⟨⟨ax, ay⟩, ⟨aw, ab⟩⟩ := a
  obtain ⟨⟨bx, bY⟩, ⟨bw, bB⟩⟩ := b
  simp only [translationExact, translate, Box.topLeft, Box.bottomRight, Point.x, Point.y]
    at ha hb
  obtain ⟨⟨h1, h2, h3⟩, h4, h5⟩ := ha
  obtain ⟨⟨g1, g2, g3⟩, g4, g5⟩ := hb
  obtain ⟨pax, pdx, rfl, rfl, e1⟩ := (exactSum_iff _ _).1 h1
  obtain ⟨pay, pdy, rfl, rfl, e2⟩ := (exactSum_iff _ _).1 h2
  obtain ⟨pab, q3, rfl, hq3, e3⟩ := (exactSum_iff _ _).1 h3
  cases hq3
  obtain ⟨p4, paw, hp4, rfl, e4⟩ := (exactSum_iff _ _).1 h4
  cases hp4
  obtain ⟨pbx, q5, rfl, hq5, f1⟩ := (exactSum_iff _ _).1 g1
  cases hq5
  obtain ⟨pby, q6, rfl, hq6, f2⟩ := (exactSum_iff _ _).1 g2
  cases hq6
  obtain ⟨pbb, q7, rfl, hq7, f3⟩ := (exactSum_iff _ _).1 g3
  cases hq7
  obtain ⟨p8, pbw, hp8, rfl, f4⟩ := (exactSum_iff _ _).1 g4
  cases hp8
  rw [F32.add_fin, e1] at h5
  rw [F32.add_fin, f1] at g5
  obtain ⟨p9, q9, hp9, hq9, e5⟩ := (exactSum_iff _ _).1 h5
  cases hp9
  cases hq9
  obtain ⟨p10, q10, hp10, hq10, f5⟩ := (exactSum_iff _ _).1 g5
  cases hp10
  cases hq10
  rw [Bool.eq_iff_iff, intersects_iff32, intersects_iff32]
  simp only [translate, Box.topLeft, Box.bottomRight, Point.x, Point.y, F32.add_fin, e1, e2,
    e3, e4, e5, f1, f2, f3, f4, f5, F32.lt_fin, decide_eq_true_eq]
  constructor <;>
    rintro (⟨⟨k1, k2⟩, k3, k4⟩ | ⟨⟨k1, k2⟩, k3, k4⟩ | ⟨⟨k1, k2⟩, k3, k4⟩ |
      ⟨⟨k1, k2⟩, k3, k4⟩)
  · exact Or.inl ⟨⟨by linarith, by linarith⟩, by linarith, by linarith⟩
  · exact Or.inr (Or.inl ⟨⟨by linarith, by linarith⟩, by linarith, by linarith⟩)
  · exact Or.inr (Or.inr (Or.inl ⟨⟨by linarith, by linarith⟩, by linarith, by linarith⟩))
  · exact Or.inr (Or.inr (Or.inr ⟨⟨by linarith, by linarith⟩, by linarith, by linarith⟩))
  · exact Or.inl ⟨⟨by linarith, by linarith⟩, by linarith, by linarith⟩
  · exact Or.inr (Or.inl ⟨⟨by linarith, by linarith⟩, by linarith, by linarith⟩)
  · exact Or.inr (Or.inr (Or.inl ⟨⟨by linarith, by linarith⟩, by linarith, by linarith⟩))
  · exact Or.inr (Or.inr (Or.inr ⟨⟨by linarith, by linarith⟩, by linarith, by linarith⟩))

/-- C14, amended, instance: the boxes of test case "Box intersects 1" moved by
`dx = 3`, `dy = 2`; every sum involved is a small integer, hence exact, and the
predicate is true before and after the move. -/
theorem C14_translation_invariant_when_exact_witness :
    (translationExact (F32.fin 3) (F32.fin 2) t1 ∧
      translationExact (F32.fin 3) (F32.fin 2) t2) ∧
    intersects (translate (F32.fin 3) (F32.fin 2) t1)
      (translate (F32.fin 3) (F32.fin 2) t2) = intersects t1 t2 ∧
    intersects t1 t2 = true :=
  have h1 : translationExact (F32.fin 3) (F32.fin 2) t1 := by
    simp only [translationExact, translate, t1, fbox, Box.topLeft, Box.bottomRight, Point.x,
      Point.y, F32.add_fin, exactSum_iff]
    norm_num [round32_5, round32_3, round32_6, round32_9]
  have h2 : translationExact (F32.fin 3) (F32.fin 2) t2 := by
    simp only [translationExact, translate, t2, fbox, Box.topLeft, Box.bottomRight, Point.x,
      Point.y, F32.add_fin, exactSum_iff]
    norm_num [round32_4, round32_6, round32_7]
  have h3 : intersects t1 t2 = true := by
    rw [intersects_iff32]
    simp only [t1, t2, fbox, F32.add_fin]
    norm_num [round32_4, round32_6, F32.lt_fin]
  ⟨⟨h1, h2⟩, C14_translation_invariant_when_exact t1 t2 (F32.fin 3) (F32.fin 2) h1 h2, h3⟩

end f32

end bb
